import Mathlib

/-!
Shallow embedding of the slice-transfer client of the jupyterlab-fitsview
repository: the wire-tag codec and binary request helpers of `src/handler.ts`
and the slice-navigation logic of `src/widget.ts` (`FITSPanel`).

Conventions of the embedding:
* A JS `ArrayBuffer` body is a `List UInt8` (`ByteBuffer`).
* The `X-FITS-Shape` header is carried already JSON-parsed, as
  `Option (List Nat)` (the code does `shapeHeader ? JSON.parse(shapeHeader) : []`).
* JS typed-array construction over an `ArrayBuffer` throws a `RangeError`
  when the byte length is not a multiple of `BYTES_PER_ELEMENT`; the
  embedding returns `Option`, with `none` for that throw.
* `async` control flow is flattened: issuing a request appends a fresh
  request id to the client's `inFlight` list; the response is a separate
  event, so two ids in `inFlight` model two concurrent transfers.
-/

namespace Fitsview

/-- A raw binary body, one `UInt8` per byte of the JS `ArrayBuffer`. -/
abbrev ByteBuffer := List UInt8

/-- `ArrayType` enum of `src/handler.ts` (lines 8-19): Rust-style wire tags. -/
inductive ArrayType where
  | INT8
  | UINT8
  | INT16
  | UINT16
  | INT32
  | UINT32
  | INT64
  | UINT64
  | FLOAT32
  | FLOAT64
deriving DecidableEq, Repr

/-- The string value of each `ArrayType` enum member (`'i8'`, ..., `'f64'`). -/
def ArrayType.tag : ArrayType → String
  | .INT8 => "i8"
  | .UINT8 => "u8"
  | .INT16 => "i16"
  | .UINT16 => "u16"
  | .INT32 => "i32"
  | .UINT32 => "u32"
  | .INT64 => "i64"
  | .UINT64 => "u64"
  | .FLOAT32 => "f32"
  | .FLOAT64 => "f64"

/-- Which strings are members of the `ArrayType` enum (a TS value of type
`ArrayType` produced by a cast is "recognized" when it equals one of the
ten enum string values). -/
def parseArrayType (s : String) : Option ArrayType :=
  if s = "i8" then some .INT8
  else if s = "u8" then some .UINT8
  else if s = "i16" then some .INT16
  else if s = "u16" then some .UINT16
  else if s = "i32" then some .INT32
  else if s = "u32" then some .UINT32
  else if s = "i64" then some .INT64
  else if s = "u64" then some .UINT64
  else if s = "f32" then some .FLOAT32
  else if s = "f64" then some .FLOAT64
  else none

/-- `getArrayTypeByteSize` of `src/handler.ts` (lines 134-152): bytes per
element for each wire tag; the TS `default` branch shares the 8-byte case. -/
def getArrayTypeByteSize : ArrayType → Nat
  | .INT8 => 1
  | .UINT8 => 1
  | .INT16 => 2
  | .UINT16 => 2
  | .INT32 => 4
  | .UINT32 => 4
  | .FLOAT32 => 4
  | .INT64 => 8
  | .UINT64 => 8
  | .FLOAT64 => 8

/-- Maximum auto-fetch size in bytes (`src/widget.ts` line 18). -/
def MAX_AUTO_FETCH_SIZE : Nat := 5 * 1024 * 1024

/-- `calculateSliceByteSize` of `src/handler.ts` (lines 157-169): byte size
of the trailing two-axis image plane, ignoring leading axes. -/
def calculateSliceByteSize (shape : List Nat) (arrayType : ArrayType) : Nat :=
  if shape.length < 2 then 0
  else
    let height := shape.getD (shape.length - 2) 0
    let width := shape.getD (shape.length - 1) 0
    let numPixels := width * height
    numPixels * getArrayTypeByteSize arrayType

/-- The family of JS TypedArray constructors `createTypedArray` can return. -/
inductive TypedArrayKind where
  | int8
  | uint8
  | int16
  | uint16
  | int32
  | uint32
  | bigint64
  | biguint64
  | float32
  | float64
deriving DecidableEq, Repr

/-- `BYTES_PER_ELEMENT` of each TypedArray constructor. -/
def TypedArrayKind.bytesPerElement : TypedArrayKind → Nat
  | .int8 => 1
  | .uint8 => 1
  | .int16 => 2
  | .uint16 => 2
  | .int32 => 4
  | .uint32 => 4
  | .bigint64 => 8
  | .biguint64 => 8
  | .float32 => 4
  | .float64 => 8

/-- The constructor chosen by the `switch` of `createTypedArray`
(`src/handler.ts` lines 275-302).  The TS enum values are the tag strings,
so the `switch` compares the incoming value against `'i8'`, ..., `'f64'`;
the `FLOAT64` case and `default` share the `Float64Array` branch. -/
def createTypedArrayKind (arrayType : String) : TypedArrayKind :=
  if arrayType = "i8" then .int8
  else if arrayType = "u8" then .uint8
  else if arrayType = "i16" then .int16
  else if arrayType = "u16" then .uint16
  else if arrayType = "i32" then .int32
  else if arrayType = "u32" then .uint32
  else if arrayType = "i64" then .bigint64
  else if arrayType = "u64" then .biguint64
  else if arrayType = "f32" then .float32
  else .float64

/-- A constructed TypedArray view: its constructor kind and element count. -/
structure TypedArrayView where
  kind : TypedArrayKind
  length : Nat
deriving DecidableEq, Repr

/-- `createTypedArray` of `src/handler.ts` (lines 275-302) applied to a
buffer: `new <Ctor>(buffer)` throws a `RangeError` (modelled `none`) when the
byte length is not a multiple of `BYTES_PER_ELEMENT`, and otherwise yields a
view of `byteLength / BYTES_PER_ELEMENT` elements. -/
def createTypedArray (buffer : ByteBuffer) (arrayType : String) :
    Option TypedArrayView :=
  let k := createTypedArrayKind arrayType
  if buffer.length % k.bytesPerElement = 0 then
    some { kind := k, length := buffer.length / k.bytesPerElement }
  else none

/-- The `X-FITS-Type` extraction shared by `requestBinaryAPI` (lines 110-111)
and `requestBinaryAPIWithProgress` (lines 235-236):
`(typeHeader as ArrayType) || ArrayType.FLOAT64` — a `null` header or an
empty string is falsy and becomes `'f64'`; any other string is kept. -/
def extractArrayType : Option String → String
  | none => "f64"
  | some s => if s = "" then "f64" else s

/-- The error values the binary request helpers can reject with:
`ServerConnection.ResponseError` for a non-ok status, and the `AbortError`
a `fetch` rejects with when its `AbortSignal` fires. -/
inductive FetchError where
  | responseError (message : String)
  | abortError
deriving DecidableEq, Repr

/-- A transport response as the client sees it: ok flag, raw body bytes,
the two FITS headers (`X-FITS-Shape` carried JSON-parsed), and the
text used for the error message of a non-ok response. -/
structure BinaryResponse where
  ok : Bool
  body : ByteBuffer
  shapeHeader : Option (List Nat)
  typeHeader : Option String
  errorText : String
deriving DecidableEq, Repr

/-- The record `{ buffer, shape, arrayType }` the binary helpers resolve to. -/
structure SliceResponseData where
  buffer : ByteBuffer
  shape : List Nat
  arrayType : String
deriving DecidableEq, Repr

/-- `requestBinaryAPI` of `src/handler.ts` (lines 77-114): a non-ok response
throws a `ResponseError`; an ok response resolves to the body as received
(`response.arrayBuffer()`), the parsed `X-FITS-Shape` header (or `[]` when
absent), and the extracted type tag.  No other processing occurs. -/
def requestBinaryAPI (r : BinaryResponse) : Except FetchError SliceResponseData :=
  if r.ok then
    .ok { buffer := r.body
        , shape := r.shapeHeader.getD []
        , arrayType := extractArrayType r.typeHeader }
  else
    .error (.responseError r.errorText)

/-- The chunk-reading loop of `requestBinaryAPIWithProgress`
(`src/handler.ts` lines 246-268), taken on the streaming path (progress
callback present, nonzero `Content-Length`, readable body): the transport
delivers the body as `chunks` in arrival order; each iteration pushes the
chunk, adds its length to `loaded`, and calls `onProgress(loaded, total)`;
afterwards the chunks are copied in order into one buffer.  Returns the
list of `(loaded, total)` progress reports and the combined buffer. -/
def streamBodyChunks (chunks : List ByteBuffer) (total : Nat) (loaded : Nat) :
    List (Nat × Nat) × ByteBuffer :=
  match chunks with
  | [] => ([], [])
  | c :: rest =>
    let loaded2 := loaded + c.length
    let next := streamBodyChunks rest total loaded2
    ((loaded2, total) :: next.1, c ++ next.2)

/-- `ISliceState` of `src/widget.ts` (lines 61-66): per-HDU navigation state
with the full shape and a current index for every leading axis. -/
structure ISliceState where
  hduIndex : Nat
  shape : List Nat
  sliceIndices : List Nat
deriving DecidableEq, Repr

/-- Lookup in the `Map<number, ISliceState>` `_sliceStates`, modelled as an
association list. -/
def lookupState : List (Nat × ISliceState) → Nat → Option ISliceState
  | [], _ => none
  | (k, v) :: rest, key => if k = key then some v else lookupState rest key

/-- In-place mutation of the `ISliceState` object stored under a key
(`sliceState.sliceIndices[axis] = newIndex` mutates the mapped object). -/
def setState : List (Nat × ISliceState) → Nat → ISliceState →
    List (Nat × ISliceState)
  | [], _, _ => []
  | (k, v) :: rest, key, v2 =>
    if k = key then (k, v2) :: rest else (k, v) :: setState rest key v2

/-- The `FITSPanel` fields the slice subsystem touches (`src/widget.ts`
lines 71-81), plus an explicit model of the asynchronous transfers:
`inFlight` holds the ids of slice requests issued and not yet resolved,
rejected or aborted; `nextRequestId` is a fresh-id counter;
`fetchAbortController` holds the request id the current
`_fetchAbortController` would abort (`none` when the field is `null`).
`viewers` lists the HDU indices for which `viewarr.hasViewer` is true. -/
structure ClientState where
  sliceStates : List (Nat × ISliceState)
  activeHduIndex : Option Nat
  viewers : List Nat
  inFlight : List Nat
  nextRequestId : Nat
  fetchAbortController : Option Nat
deriving DecidableEq, Repr

/-- `_getActiveSliceState` (`src/widget.ts` lines 450-455). -/
def getActiveSliceState (s : ClientState) : Option ISliceState :=
  match s.activeHduIndex with
  | none => none
  | some h => lookupState s.sliceStates h

/-- `_ensureViewer` (`src/widget.ts` lines 353-377) with `viewarr` loaded and
viewer creation succeeding: creates the viewer for the HDU when absent. -/
def ensureViewer (s : ClientState) (hduIndex : Nat) : ClientState :=
  if hduIndex ∈ s.viewers then s
  else { s with viewers := hduIndex :: s.viewers }

/-- `_fetchAndDisplaySlice` (`src/widget.ts` lines 717-764): bails out when
there is no active slice state; otherwise ensures the viewer exists and
issues one `requestBinaryAPI` slice request.  The request is awaited
asynchronously, so issuing it only records a new in-flight id; nothing is
aborted or cancelled, and `_fetchAbortController` is not touched. -/
def fetchAndDisplaySlice (s : ClientState) : ClientState :=
  match s.activeHduIndex with
  | none => s
  | some h =>
    match lookupState s.sliceStates h with
    | none => s
    | some _ =>
      let s1 := ensureViewer s h
      { s1 with
        inFlight := s1.inFlight ++ [s1.nextRequestId]
        nextRequestId := s1.nextRequestId + 1 }

/-- The clamp of `_navigateSlice` (`src/widget.ts` lines 702-705):
`Math.max(0, Math.min(axisSize - 1, sliceIndices[axis] + delta))`,
over JS numbers, so the subtraction is carried out in `Int`. -/
def clampIndex (axisSize : Nat) (current : Nat) (delta : Int) : Int :=
  max 0 (min ((axisSize : Int) - 1) ((current : Int) + delta))

/-- `_navigateSlice` (`src/widget.ts` lines 694-712): reads the active slice
state (returning unchanged when there is none), clamps the target index,
and when the clamped index differs from the current one stores it and calls
`_fetchAndDisplaySlice`; otherwise nothing happens.  Out-of-range list reads
use the `getD _ 0` convention (the UI only passes leading-axis indices). -/
def navigateSlice (s : ClientState) (axis : Nat) (delta : Int) : ClientState :=
  match s.activeHduIndex with
  | none => s
  | some h =>
    match lookupState s.sliceStates h with
    | none => s
    | some st =>
      let axisSize := st.shape.getD axis 0
      let current := st.sliceIndices.getD axis 0
      let newIndex := clampIndex axisSize current delta
      if newIndex = (current : Int) then s
      else
        let st2 := { st with
          sliceIndices := st.sliceIndices.set axis newIndex.toNat }
        fetchAndDisplaySlice { s with sliceStates := setState s.sliceStates h st2 }

/-- The fields of `IHDUInfo` (`src/widget.ts` lines 42-49) the slice
subsystem reads; `name`, `type` and `header` are display-only. -/
structure IHDUInfo where
  index : Nat
  shape : Option (List Nat)
  arrayType : Option ArrayType
deriving DecidableEq, Repr

/-- What `_viewHDUImage` did after the early guards: nothing (non-viewable
HDU, or the viewer already holds data), an auto-fetch, or the large-image
prompt showing the estimated byte size. -/
inductive ViewAction where
  | noneAction
  | autoFetched
  | prompted (byteSize : Nat)
deriving DecidableEq, Repr

/-- `_viewHDUImage` (`src/widget.ts` lines 400-445) with `viewarr` loaded:
returns unchanged unless the HDU has a shape of rank >= 2 and a known array
type; creates the slice state with all leading indices at 0 when absent;
returns without fetching when `viewarr.hasViewer` already holds for the HDU;
otherwise auto-fetches when `calculateSliceByteSize` is at most
`MAX_AUTO_FETCH_SIZE` and shows the large-image prompt otherwise. -/
def viewHDUImage (s : ClientState) (hdu : IHDUInfo) : ClientState × ViewAction :=
  match hdu.shape, hdu.arrayType with
  | some shape, some t =>
    if shape.length < 2 then (s, .noneAction)
    else
      let s1 :=
        match lookupState s.sliceStates hdu.index with
        | some _ => s
        | none =>
          { s with sliceStates :=
              (hdu.index,
               { hduIndex := hdu.index
               , shape := shape
               , sliceIndices := List.replicate (shape.length - 2) 0 })
              :: s.sliceStates }
      if hdu.index ∈ s1.viewers then (s1, .noneAction)
      else
        let sliceByteSize := calculateSliceByteSize shape t
        if sliceByteSize ≤ MAX_AUTO_FETCH_SIZE then
          (fetchAndDisplaySlice s1, .autoFetched)
        else
          (s1, .prompted sliceByteSize)
  | _, _ => (s, .noneAction)

/-- `_switchToHDU` (`src/widget.ts` lines 270-304): returns unchanged when
the HDU is already active; otherwise makes it active (the container
show/hide and button classes are display-only) and runs `_viewHDUImage`.
`hdu` is the metadata entry whose `index` is the switched-to HDU. -/
def switchToHDU (s : ClientState) (hdu : IHDUInfo) : ClientState × ViewAction :=
  if s.activeHduIndex = some hdu.index then (s, .noneAction)
  else viewHDUImage { s with activeHduIndex := some hdu.index } hdu

/-- The slice specification segments built by `_fetchAndDisplaySlice`
(`src/widget.ts` lines 735-743, identically lines 559-567):
`shape.map((size, i) => i < shape.length - 2 ? idx + ':' + (idx+1) : '0:' + size)`. -/
def buildSliceSegments (shape sliceIndices : List Nat) : List String :=
  shape.enum.map (fun p =>
    if p.1 < shape.length - 2 then
      let idx := sliceIndices.getD p.1 0
      toString idx ++ ":" ++ toString (idx + 1)
    else
      "0:" ++ toString p.2)

/-- The `.flatten(',')` completing the slice string of
`_fetchAndDisplaySlice` (`src/widget.ts` line 743). -/
def buildSliceString (shape sliceIndices : List Nat) : String :=
  String.intercalate "," (buildSliceSegments shape sliceIndices)

/-- The outcome of the `try`/`catch` of `_fetchAndDisplaySliceWithProgress`
(`src/widget.ts` lines 572-627): success displays the slice; an error named
`AbortError` is logged and the handler returns with no error surfaced; any
other error renders an error message into the progress container. -/
inductive ProgressFetchOutcome where
  | displayed
  | cancelled
  | showedError (message : String)
deriving DecidableEq, Repr

/-- The result dispatch of `_fetchAndDisplaySliceWithProgress`
(`src/widget.ts` lines 619-627): the `AbortError` branch returns cleanly,
distinct from the error branch. -/
def handleProgressFetchResult :
    Except FetchError SliceResponseData → ProgressFetchOutcome
  | .ok _ => .displayed
  | .error .abortError => .cancelled
  | .error (.responseError msg) => .showedError msg

/-- The large-image prompt UI of `_showLargeImagePrompt`
(`src/widget.ts` lines 470-532): the fetch button, the progress container
and its fill percentage and text. -/
structure PromptUI where
  fetchButtonVisible : Bool
  progressVisible : Bool
  progressFillPercent : Nat
  progressText : String
deriving DecidableEq, Repr

/-- The prompt as first rendered (`src/widget.ts` lines 477-493): fetch
button shown, progress hidden, fill at 0%, text `0%`. -/
def initialPromptUI : PromptUI :=
  { fetchButtonVisible := true
  , progressVisible := false
  , progressFillPercent := 0
  , progressText := "0%" }

/-- The fetch-button click handler (`src/widget.ts` lines 511-519) together
with the start of `_fetchAndDisplaySliceWithProgress` (line 570): hides the
button, shows the progress UI, creates a fresh `AbortController` and issues
the streaming request under it. -/
def fetchClick (s : ClientState) (ui : PromptUI) : ClientState × PromptUI :=
  ({ s with
      inFlight := s.inFlight ++ [s.nextRequestId]
      nextRequestId := s.nextRequestId + 1
      fetchAbortController := some s.nextRequestId }
  , { ui with fetchButtonVisible := false, progressVisible := true })

/-- The cancel-button click handler (`src/widget.ts` lines 521-531): aborts
the current controller if any (the aborted request leaves flight and its
promise rejects with `AbortError`), nulls the controller, and resets the UI
to the pre-fetch prompt. -/
def cancelClick (s : ClientState) (_ui : PromptUI) : ClientState × PromptUI :=
  match s.fetchAbortController with
  | none => (s, initialPromptUI)
  | some r =>
    ({ s with
        inFlight := s.inFlight.filter (fun x => x ≠ r)
        fetchAbortController := none }
    , initialPromptUI)

/-! Helper lemmas shared across the development. -/

lemma lookupState_cons_ne (k key : Nat) (v : ISliceState)
    (m : List (Nat × ISliceState)) (h : k ≠ key) :
    lookupState ((k, v) :: m) key = lookupState m key := by
  simp [lookupState, h]

lemma lookupState_setState_self (m : List (Nat × ISliceState)) (key : Nat)
    (v v2 : ISliceState) (h : lookupState m key = some v) :
    lookupState (setState m key v2) key = some v2 := by
  induction m with
  | nil => simp [lookupState] at h
  | cons p rest ih =>
    obtain ⟨k, w⟩ := p
    by_cases hk : k = key
    · subst hk
      simp [setState, lookupState]
    · rw [lookupState_cons_ne k key w rest hk] at h
      simp only [setState, if_neg hk]
      rw [lookupState_cons_ne k key w _ hk]
      exact ih h

lemma ensureViewer_fields (s : ClientState) (h : Nat) :
    (ensureViewer s h).sliceStates = s.sliceStates ∧
    (ensureViewer s h).activeHduIndex = s.activeHduIndex ∧
    (ensureViewer s h).inFlight = s.inFlight ∧
    (ensureViewer s h).nextRequestId = s.nextRequestId ∧
    (ensureViewer s h).fetchAbortController = s.fetchAbortController := by
  unfold ensureViewer
  split <;> simp

lemma fetchAndDisplaySlice_issues (s : ClientState) (h : Nat)
    (st : ISliceState) (hact : s.activeHduIndex = some h)
    (hst : lookupState s.sliceStates h = some st) :
    (fetchAndDisplaySlice s).inFlight = s.inFlight ++ [s.nextRequestId] ∧
    (fetchAndDisplaySlice s).sliceStates = s.sliceStates ∧
    (fetchAndDisplaySlice s).fetchAbortController = s.fetchAbortController := by
  unfold fetchAndDisplaySlice
  rw [hact]
  simp only [hst]
  have he := ensureViewer_fields s h
  exact ⟨by rw [he.2.2.1, he.2.2.2.1], he.1, he.2.2.2.2⟩

/-- C1: the step operation of `_navigateSlice` clamps the target index to
`[0, axis_size - 1]`, so the result is in bounds whenever the axis is
nonempty; and when the clamped index equals the current one the operation
is a no-op: the client state (navigation state included) is unchanged and
no slice fetch is issued. -/
theorem navigateSlice_clamps_and_noop
    (s : ClientState) (axis : Nat) (delta : Int) (st : ISliceState)
    (hst : getActiveSliceState s = some st)
    (hsize : 1 ≤ st.shape.getD axis 0) :
    (0 ≤ clampIndex (st.shape.getD axis 0) (st.sliceIndices.getD axis 0) delta ∧
      clampIndex (st.shape.getD axis 0) (st.sliceIndices.getD axis 0) delta ≤
        (st.shape.getD axis 0 : Int) - 1) ∧
    (clampIndex (st.shape.getD axis 0) (st.sliceIndices.getD axis 0) delta =
        (st.sliceIndices.getD axis 0 : Int) →
      navigateSlice s axis delta = s) := by
  constructor
  · unfold clampIndex
    omega
  · intro heq
    cases hact : s.activeHduIndex with
    | none => simp only [navigateSlice, hact]
    | some h =>
      have hlk : lookupState s.sliceStates h = some st := by
        simpa [getActiveSliceState, hact] using hst
      simp only [navigateSlice, hact, hlk]
      rw [if_pos heq]

/-- Witness for C1 at a concrete state: shape `[3, 4, 5]`, leading index 2,
step `+1` clamps at the bound and leaves the client state untouched. -/
def stW1 : ISliceState := { hduIndex := 0, shape := [3, 4, 5], sliceIndices := [2] }

/-- Concrete client state for the C1 witness. -/
def sW1 : ClientState :=
  { sliceStates := [(0, stW1)], activeHduIndex := some 0, viewers := [0]
  , inFlight := [], nextRequestId := 0, fetchAbortController := none }

/-- C1 witness: the clamp bounds and the no-op hold at the concrete state. -/
theorem navigateSlice_clamps_and_noop_witness :
    (0 ≤ clampIndex (stW1.shape.getD 0 0) (stW1.sliceIndices.getD 0 0) 1 ∧
      clampIndex (stW1.shape.getD 0 0) (stW1.sliceIndices.getD 0 0) 1 ≤
        (stW1.shape.getD 0 0 : Int) - 1) ∧
    (clampIndex (stW1.shape.getD 0 0) (stW1.sliceIndices.getD 0 0) 1 =
        (stW1.sliceIndices.getD 0 0 : Int) →
      navigateSlice sW1 0 1 = sW1) :=
  navigateSlice_clamps_and_noop sW1 0 1 stW1 (by decide) (by decide)

/-- Concrete client state refuting C2: request id 7 is in flight. -/
def sC2 : ClientState :=
  { sliceStates :=
      [(0, { hduIndex := 0, shape := [3, 4, 5], sliceIndices := [0] })]
  , activeHduIndex := some 0, viewers := [0], inFlight := [7]
  , nextRequestId := 8, fetchAbortController := none }

/-- C2 counterexample: a navigation step from leading index 0 to 1 while
transfer 7 is in flight issues the new request 8 with transfer 7 still in
flight — the prior transfer is not cancelled before the new request, so two
transfers for the unit are in flight at once. -/
theorem navigateSlice_no_cancel_counterexample :
    (navigateSlice sC2 0 1).inFlight = [7, 8] ∧
    lookupState (navigateSlice sC2 0 1).sliceStates 0 =
      some { hduIndex := 0, shape := [3, 4, 5], sliceIndices := [1] } := by
  constructor <;> decide

/-- C2 amended: a navigation action never cancels anything — every
previously in-flight transfer is still in flight afterwards and the abort
controller is untouched; the in-flight list is either unchanged (no-op
step) or extended with the freshly issued request while all prior
transfers remain, so transfers for one unit can pile up concurrently. -/
theorem navigateSlice_keeps_prior_transfers
    (s : ClientState) (axis : Nat) (delta : Int) (r : Nat)
    (hr : r ∈ s.inFlight) :
    r ∈ (navigateSlice s axis delta).inFlight ∧
    (navigateSlice s axis delta).fetchAbortController = s.fetchAbortController ∧
    ((navigateSlice s axis delta).inFlight = s.inFlight ∨
      (navigateSlice s axis delta).inFlight = s.inFlight ++ [s.nextRequestId]) := by
  cases hact : s.activeHduIndex with
  | none =>
    have hns : navigateSlice s axis delta = s := by
      simp only [navigateSlice, hact]
    rw [hns]
    exact ⟨hr, rfl, Or.inl rfl⟩
  | some h =>
    cases hst : lookupState s.sliceStates h with
    | none =>
      have hns : navigateSlice s axis delta = s := by
        simp only [navigateSlice, hact, hst]
      rw [hns]
      exact ⟨hr, rfl, Or.inl rfl⟩
    | some st =>
      by_cases heq : clampIndex (st.shape.getD axis 0)
          (st.sliceIndices.getD axis 0) delta =
          (st.sliceIndices.getD axis 0 : Int)
      · have hns : navigateSlice s axis delta = s := by
          simp only [navigateSlice, hact, hst]
          rw [if_pos heq]
        rw [hns]
        exact ⟨hr, rfl, Or.inl rfl⟩
      · have hst2 := lookupState_setState_self s.sliceStates h st
          ({ st with sliceIndices := (st.sliceIndices.set axis (clampIndex (st.shape.getD axis 0) (st.sliceIndices.getD axis 0) delta).toNat) }) hst
        have hi := fetchAndDisplaySlice_issues
          { sliceStates := (setState s.sliceStates h { st with sliceIndices := (st.sliceIndices.set axis (clampIndex (st.shape.getD axis 0) (st.sliceIndices.getD axis 0) delta).toNat) })
          , activeHduIndex := some h
          , viewers := s.viewers
          , inFlight := s.inFlight
          , nextRequestId := s.nextRequestId
          , fetchAbortController := s.fetchAbortController }
          h _ rfl hst2
        simp only [navigateSlice, hact, hst]
        rw [if_neg heq]
        refine ⟨?_, ?_, Or.inr ?_⟩
        · rw [hi.1]
          exact List.mem_append_left _ hr
        · rw [hi.2.2]
        · rw [hi.1]

/-- C2 amended witness at the concrete state `sC2`. -/
theorem navigateSlice_keeps_prior_transfers_witness :
    7 ∈ (navigateSlice sC2 0 1).inFlight ∧
    (navigateSlice sC2 0 1).fetchAbortController = sC2.fetchAbortController ∧
    ((navigateSlice sC2 0 1).inFlight = sC2.inFlight ∨
      (navigateSlice sC2 0 1).inFlight = sC2.inFlight ++ [sC2.nextRequestId]) :=
  navigateSlice_keeps_prior_transfers sC2 0 1 7 (by decide)

/-- A successful response whose body length (5 bytes) does not match the
shape/type-implied length (`2 * 2 * 8 = 32` bytes). -/
def respC3 : BinaryResponse :=
  { ok := true, body := List.replicate 5 0, shapeHeader := some [2, 2]
  , typeHeader := some "f64", errorText := "" }

/-- C3 counterexample: on a successful response whose 5-byte body disagrees
with the 32 bytes implied by shape `[2,2]` and tag `f64`, `requestBinaryAPI`
resolves normally with the mismatched buffer — no length comparison is made
and no transfer-integrity error is raised (the client has no such error
kind at all). -/
theorem requestBinaryAPI_no_integrity_error_counterexample :
    requestBinaryAPI respC3 =
      .ok { buffer := List.replicate 5 0, shape := [2, 2], arrayType := "f64" } ∧
    respC3.body.length ≠
      [2, 2].prod * (createTypedArrayKind "f64").bytesPerElement := by
  constructor
  · rfl
  · decide

/-- C3 amended: the client computes no expected byte length and performs no
integrity check — every successful binary response resolves with the body
byte-for-byte as received (so it is indeed never truncated or padded, but a
shape/type-implied length mismatch passes through silently rather than
being surfaced as a distinct transfer-integrity error). -/
theorem requestBinaryAPI_returns_body_unchecked
    (r : BinaryResponse) (hok : r.ok = true) :
    requestBinaryAPI r =
      .ok { buffer := r.body, shape := r.shapeHeader.getD []
          , arrayType := extractArrayType r.typeHeader } := by
  simp [requestBinaryAPI, hok]

/-- C3 amended witness: the unchecked pass-through at the concrete
mismatched response. -/
theorem requestBinaryAPI_returns_body_unchecked_witness :
    requestBinaryAPI respC3 =
      .ok { buffer := respC3.body, shape := respC3.shapeHeader.getD []
          , arrayType := extractArrayType respC3.typeHeader } :=
  requestBinaryAPI_returns_body_unchecked respC3 (by decide)

lemma buildSliceSegments_getElem (shape sliceIndices : List Nat) (i : Nat) :
    (buildSliceSegments shape sliceIndices)[i]? =
      (shape[i]?).map (fun size =>
        if i < shape.length - 2 then
          toString (sliceIndices.getD i 0) ++ ":" ++
            toString (sliceIndices.getD i 0 + 1)
        else "0:" ++ toString size) := by
  unfold buildSliceSegments
  rw [List.getElem?_map, List.getElem?_enum, Option.map_map]
  rfl

/-- C4: the slice specification built for a fetch has exactly one
comma-separated segment per axis; segment `i` for a leading axis
(`i < n - 2`) is `idx:idx+1` pinning the current index, and each of the
last two segments is `0:size` requesting the axis in full. -/
theorem buildSliceString_segments_spec (shape sliceIndices : List Nat)
    (hrank : 2 ≤ shape.length) :
    (buildSliceSegments shape sliceIndices).length = shape.length ∧
    (∀ i, i < shape.length - 2 →
      (buildSliceSegments shape sliceIndices).getD i "" =
        toString (sliceIndices.getD i 0) ++ ":" ++
          toString (sliceIndices.getD i 0 + 1)) ∧
    (∀ i, shape.length - 2 ≤ i → i < shape.length →
      (buildSliceSegments shape sliceIndices).getD i "" =
        "0:" ++ toString (shape.getD i 0)) ∧
    buildSliceString shape sliceIndices =
      String.intercalate "," (buildSliceSegments shape sliceIndices) := by
  refine ⟨?_, ?_, ?_, rfl⟩
  · unfold buildSliceSegments
    simp
  · intro i hi
    have hilen : i < shape.length := by omega
    rw [List.getD_eq_getElem?_getD, buildSliceSegments_getElem,
      List.getElem?_eq_getElem hilen]
    simp [hi]
  · intro i hge hlt
    rw [List.getD_eq_getElem?_getD, buildSliceSegments_getElem,
      List.getElem?_eq_getElem hlt]
    have hnot : ¬ i < shape.length - 2 := by omega
    simp [hnot, List.getD_eq_getElem?_getD, List.getElem?_eq_getElem hlt]

/-- C4 witness: shape `[4, 5, 6]` with leading index 2 yields the three
segments `2:3`, `0:5`, `0:6`. -/
theorem buildSliceString_segments_spec_witness :
    (buildSliceSegments [4, 5, 6] [2]).length = [4, 5, 6].length ∧
    (∀ i, i < [4, 5, 6].length - 2 →
      (buildSliceSegments [4, 5, 6] [2]).getD i "" =
        toString (List.getD [2] i 0) ++ ":" ++
          toString (List.getD [2] i 0 + 1)) ∧
    (∀ i, [4, 5, 6].length - 2 ≤ i → i < [4, 5, 6].length →
      (buildSliceSegments [4, 5, 6] [2]).getD i "" =
        "0:" ++ toString (List.getD [4, 5, 6] i 0)) ∧
    buildSliceString [4, 5, 6] [2] =
      String.intercalate "," (buildSliceSegments [4, 5, 6] [2]) :=
  buildSliceString_segments_spec [4, 5, 6] [2] (by decide)

/-- C5: first selection of a viewable unit (rank >= 2, known element type,
no slice state yet, no live viewer) creates the navigation state with every
leading index at 0; the size estimate is the trailing two-axis plane times
the element width (leading axes ignored); at or below the 5 MiB threshold
the fetch is issued immediately, above it no request is issued and the
prompt shows the estimated size. -/
theorem viewHDUImage_init_and_threshold
    (s : ClientState) (hdu : IHDUInfo) (shape : List Nat) (t : ArrayType)
    (hshape : hdu.shape = some shape) (htype : hdu.arrayType = some t)
    (hrank : 2 ≤ shape.length)
    (habsent : lookupState s.sliceStates hdu.index = none)
    (hnoviewer : hdu.index ∉ s.viewers)
    (hactive : s.activeHduIndex = some hdu.index) :
    lookupState (viewHDUImage s hdu).1.sliceStates hdu.index =
      some { hduIndex := hdu.index, shape := shape
           , sliceIndices := List.replicate (shape.length - 2) 0 } ∧
    calculateSliceByteSize shape t =
      shape.getD (shape.length - 1) 0 * shape.getD (shape.length - 2) 0 *
        getArrayTypeByteSize t ∧
    (calculateSliceByteSize shape t ≤ MAX_AUTO_FETCH_SIZE →
      (viewHDUImage s hdu).2 = ViewAction.autoFetched ∧
      (viewHDUImage s hdu).1.inFlight = s.inFlight ++ [s.nextRequestId]) ∧
    (MAX_AUTO_FETCH_SIZE < calculateSliceByteSize shape t →
      (viewHDUImage s hdu).2 = ViewAction.prompted (calculateSliceByteSize shape t) ∧
      (viewHDUImage s hdu).1.inFlight = s.inFlight) := by
  have h2 : ¬ shape.length < 2 := by omega
  have hview : viewHDUImage s hdu =
      (if calculateSliceByteSize shape t ≤ MAX_AUTO_FETCH_SIZE then
        (fetchAndDisplaySlice { s with sliceStates := ((hdu.index, { hduIndex := hdu.index, shape := shape, sliceIndices := List.replicate (shape.length - 2) 0 }) :: s.sliceStates) }, ViewAction.autoFetched)
      else
        ({ s with sliceStates := ((hdu.index, { hduIndex := hdu.index, shape := shape, sliceIndices := List.replicate (shape.length - 2) 0 }) :: s.sliceStates) }, ViewAction.prompted (calculateSliceByteSize shape t))) := by
    simp only [viewHDUImage, hshape, htype]
    rw [if_neg h2]
    simp only [habsent]
    rw [if_neg hnoviewer]
  have hlk1 : lookupState ((hdu.index, { hduIndex := hdu.index, shape := shape, sliceIndices := List.replicate (shape.length - 2) 0 }) :: s.sliceStates) hdu.index = some { hduIndex := hdu.index, shape := shape, sliceIndices := List.replicate (shape.length - 2) 0 } := by
    simp [lookupState]
  have hi := fetchAndDisplaySlice_issues
    { s with sliceStates := ((hdu.index, { hduIndex := hdu.index, shape := shape, sliceIndices := List.replicate (shape.length - 2) 0 }) :: s.sliceStates) }
    hdu.index _ hactive hlk1
  refine ⟨?_, ?_, ?_, ?_⟩
  · rw [hview]
    by_cases hsize : calculateSliceByteSize shape t ≤ MAX_AUTO_FETCH_SIZE
    · rw [if_pos hsize]
      rw [hi.2.1] at *
      exact hlk1
    · rw [if_neg hsize]
      exact hlk1
  · simp only [calculateSliceByteSize]
    rw [if_neg h2]
  · intro hsize
    rw [hview, if_pos hsize]
    exact ⟨rfl, hi.1⟩
  · intro hgt
    rw [hview, if_neg (not_le.mpr hgt)]
    exact ⟨rfl, rfl⟩

/-- Concrete HDU for the C5 witness: shape `[10, 10]`, `f64` elements. -/
def hduW5 : IHDUInfo :=
  { index := 1, shape := some [10, 10], arrayType := some ArrayType.FLOAT64 }

/-- Concrete client state for the C5 witness. -/
def sW5 : ClientState :=
  { sliceStates := [], activeHduIndex := some 1, viewers := []
  , inFlight := [], nextRequestId := 0, fetchAbortController := none }

/-- C5 witness: the initialization and threshold split at the concrete
state (an 800-byte `f64` plane, below the threshold, auto-fetches). -/
theorem viewHDUImage_init_and_threshold_witness :
    lookupState (viewHDUImage sW5 hduW5).1.sliceStates hduW5.index =
      some { hduIndex := hduW5.index, shape := [10, 10]
           , sliceIndices := List.replicate (([10, 10] : List Nat).length - 2) 0 } ∧
    calculateSliceByteSize [10, 10] ArrayType.FLOAT64 =
      List.getD [10, 10] (([10, 10] : List Nat).length - 1) 0 *
        List.getD [10, 10] (([10, 10] : List Nat).length - 2) 0 *
        getArrayTypeByteSize ArrayType.FLOAT64 ∧
    (calculateSliceByteSize [10, 10] ArrayType.FLOAT64 ≤ MAX_AUTO_FETCH_SIZE →
      (viewHDUImage sW5 hduW5).2 = ViewAction.autoFetched ∧
      (viewHDUImage sW5 hduW5).1.inFlight =
        sW5.inFlight ++ [sW5.nextRequestId]) ∧
    (MAX_AUTO_FETCH_SIZE < calculateSliceByteSize [10, 10] ArrayType.FLOAT64 →
      (viewHDUImage sW5 hduW5).2 =
        ViewAction.prompted (calculateSliceByteSize [10, 10] ArrayType.FLOAT64) ∧
      (viewHDUImage sW5 hduW5).1.inFlight = sW5.inFlight) :=
  viewHDUImage_init_and_threshold sW5 hduW5 [10, 10] ArrayType.FLOAT64
    (by decide) (by decide) (by decide) (by decide) (by decide) (by decide)

/-- C6: every wire tag has a fixed byte width in `{1, 2, 4, 8}`, the
TypedArray constructor `createTypedArray` selects for that tag has the
same `BYTES_PER_ELEMENT`, and for a buffer whose byte length is a multiple
of the width the decoded element count is the byte length divided by it. -/
theorem arrayType_width_decode_consistent (t : ArrayType) (buffer : ByteBuffer)
    (hfit : buffer.length % getArrayTypeByteSize t = 0) :
    (getArrayTypeByteSize t = 1 ∨ getArrayTypeByteSize t = 2 ∨
      getArrayTypeByteSize t = 4 ∨ getArrayTypeByteSize t = 8) ∧
    (createTypedArrayKind t.tag).bytesPerElement = getArrayTypeByteSize t ∧
    createTypedArray buffer t.tag =
      some { kind := createTypedArrayKind t.tag
           , length := buffer.length / getArrayTypeByteSize t } := by
  cases t <;>
    simp_all [getArrayTypeByteSize, ArrayType.tag, createTypedArrayKind,
      createTypedArray, TypedArrayKind.bytesPerElement]

/-- C6 witness at tag `f32` and an 8-byte buffer (2 decoded elements). -/
theorem arrayType_width_decode_consistent_witness :
    (getArrayTypeByteSize ArrayType.FLOAT32 = 1 ∨
      getArrayTypeByteSize ArrayType.FLOAT32 = 2 ∨
      getArrayTypeByteSize ArrayType.FLOAT32 = 4 ∨
      getArrayTypeByteSize ArrayType.FLOAT32 = 8) ∧
    (createTypedArrayKind ArrayType.FLOAT32.tag).bytesPerElement =
      getArrayTypeByteSize ArrayType.FLOAT32 ∧
    createTypedArray (List.replicate 8 0) ArrayType.FLOAT32.tag =
      some { kind := createTypedArrayKind ArrayType.FLOAT32.tag
           , length := (List.replicate (8:Nat) (0:UInt8)).length /
               getArrayTypeByteSize ArrayType.FLOAT32 } :=
  arrayType_width_decode_consistent ArrayType.FLOAT32 (List.replicate 8 0)
    (by decide)

/-- C7: aborting an in-flight transfer is a recognized outcome distinct
from failure — the `AbortError` branch returns cleanly and never renders
the error UI, while a genuine failure does; and the cancel action after a
fetch resets the prompt UI to its pre-fetch state (fetch button
re-exposed, progress reset), clears the abort controller, and removes the
aborted request from flight. -/
theorem abort_is_distinct_outcome (s : ClientState) (ui : PromptUI) (m : String) :
    handleProgressFetchResult (Except.error FetchError.abortError) =
      ProgressFetchOutcome.cancelled ∧
    handleProgressFetchResult (Except.error FetchError.abortError) ≠
      ProgressFetchOutcome.showedError m ∧
    handleProgressFetchResult (Except.error (FetchError.responseError m)) =
      ProgressFetchOutcome.showedError m ∧
    (cancelClick (fetchClick s ui).1 (fetchClick s ui).2).2 = initialPromptUI ∧
    (cancelClick (fetchClick s ui).1 (fetchClick s ui).2).1.fetchAbortController =
      none ∧
    s.nextRequestId ∉
      (cancelClick (fetchClick s ui).1 (fetchClick s ui).2).1.inFlight := by
  refine ⟨rfl, by simp [handleProgressFetchResult], rfl, rfl, rfl, ?_⟩
  simp only [fetchClick, cancelClick]
  intro hmem
  have := List.of_mem_filter hmem
  simp at this

lemma streamBodyChunks_fst (chunks : List ByteBuffer) (total loaded : Nat) :
    (streamBodyChunks chunks total loaded).1 =
      (List.range chunks.length).map
        (fun i => (loaded + ((chunks.take (i + 1)).map List.length).sum, total)) := by
  induction chunks generalizing loaded with
  | nil => rfl
  | cons c rest ih =>
    have hfun :
        ((fun i => (loaded + (((c :: rest).take (i + 1)).map List.length).sum, total)) ∘ Nat.succ) =
        (fun i => (loaded + c.length + ((rest.take (i + 1)).map List.length).sum, total)) := by
      funext i
      simp [List.take_succ_cons, Nat.add_assoc]
    simp only [streamBodyChunks, List.length_cons, List.range_succ_eq_map,
      List.map_cons, List.map_map, hfun]
    rw [ih (loaded + c.length)]
    simp [List.take_succ_cons]

lemma streamBodyChunks_snd (chunks : List ByteBuffer) (total loaded : Nat) :
    (streamBodyChunks chunks total loaded).2 = chunks.flatten := by
  induction chunks generalizing loaded with
  | nil => rfl
  | cons c rest ih => simp [streamBodyChunks, ih]

/-- C8: on the streaming path with a known total, the progress callback
fires exactly once per chunk, with `loaded` equal to the cumulative length
of the chunks received so far and `total` the declared content length; the
returned buffer is the in-arrival-order concatenation of the chunks, and
its length equals the last reported `loaded`. -/
theorem streamBodyChunks_progress_and_concat
    (chunks : List ByteBuffer) (total : Nat) :
    (streamBodyChunks chunks total 0).1 =
      (List.range chunks.length).map
        (fun i => (((chunks.take (i + 1)).map List.length).sum, total)) ∧
    (streamBodyChunks chunks total 0).2 = chunks.flatten ∧
    (chunks ≠ [] →
      (streamBodyChunks chunks total 0).1.getLast? =
        some ((streamBodyChunks chunks total 0).2.length, total)) := by
  refine ⟨?_, streamBodyChunks_snd chunks total 0, ?_⟩
  · rw [streamBodyChunks_fst]
    simp
  · intro hne
    rw [streamBodyChunks_fst, streamBodyChunks_snd]
    cases chunks with
    | nil => simp at hne
    | cons c rest =>
      have htake : (c :: rest).take (rest.length + 1) = c :: rest := by
        apply List.take_of_length_le
        simp
      rw [List.length_cons, List.range_succ, List.map_append,
        List.map_singleton, List.getLast?_concat, htake]
      simp [List.length_flatten]

/-- C8 witness: two chunks of lengths 2 and 1 with total 3 report
`(2, 3)` then `(3, 3)` and concatenate to the 3-byte buffer. -/
theorem streamBodyChunks_progress_and_concat_witness :
    (streamBodyChunks [[1, 2], [3]] 3 0).1 =
      (List.range ([[1, 2], [3]] : List ByteBuffer).length).map
        (fun i =>
          (((([[1, 2], [3]] : List ByteBuffer).take (i + 1)).map
            List.length).sum, 3)) ∧
    (streamBodyChunks [[1, 2], [3]] 3 0).2 =
      ([[1, 2], [3]] : List ByteBuffer).flatten ∧
    (([[1, 2], [3]] : List ByteBuffer) ≠ [] →
      (streamBodyChunks [[1, 2], [3]] 3 0).1.getLast? =
        some ((streamBodyChunks [[1, 2], [3]] 3 0).2.length, 3)) :=
  streamBodyChunks_progress_and_concat [[1, 2], [3]] 3

lemma ensureViewer_mem (s : ClientState) (h x : Nat) (hx : x ∈ s.viewers) :
    x ∈ (ensureViewer s h).viewers := by
  unfold ensureViewer
  split
  · exact hx
  · exact List.mem_cons_of_mem _ hx

lemma fetchAndDisplaySlice_preserves (s : ClientState) :
    (fetchAndDisplaySlice s).sliceStates = s.sliceStates ∧
    (fetchAndDisplaySlice s).activeHduIndex = s.activeHduIndex := by
  unfold fetchAndDisplaySlice
  split
  · exact ⟨rfl, rfl⟩
  · split
    · exact ⟨rfl, rfl⟩
    · exact ⟨(ensureViewer_fields s _).1, (ensureViewer_fields s _).2.1⟩

lemma fetchAndDisplaySlice_mem_viewers (s : ClientState) (x : Nat)
    (hx : x ∈ s.viewers) : x ∈ (fetchAndDisplaySlice s).viewers := by
  unfold fetchAndDisplaySlice
  split
  · exact hx
  · split
    · exact hx
    · exact ensureViewer_mem s _ x hx

lemma viewHDUImage_preserves_other (s : ClientState) (hdu : IHDUInfo)
    (key : Nat) (hne : hdu.index ≠ key) :
    lookupState (viewHDUImage s hdu).1.sliceStates key =
      lookupState s.sliceStates key := by
  unfold viewHDUImage
  split
  · split
    · rfl
    · split
      · dsimp only
        split
        · rfl
        · split
          · exact congrArg (fun m => lookupState m key)
              (fetchAndDisplaySlice_preserves s).1
          · rfl
      · dsimp only
        split
        · exact lookupState_cons_ne _ _ _ _ hne
        · split
          · exact Eq.trans
              (congrArg (fun m => lookupState m key)
                (fetchAndDisplaySlice_preserves _).1)
              (lookupState_cons_ne _ _ _ _ hne)
          · exact lookupState_cons_ne _ _ _ _ hne
  · rfl

lemma viewHDUImage_active (s : ClientState) (hdu : IHDUInfo) :
    (viewHDUImage s hdu).1.activeHduIndex = s.activeHduIndex := by
  unfold viewHDUImage
  split
  · split
    · rfl
    · split
      · dsimp only
        split
        · rfl
        · split
          · exact (fetchAndDisplaySlice_preserves s).2
          · rfl
      · dsimp only
        split
        · rfl
        · split
          · exact (fetchAndDisplaySlice_preserves _).2
          · rfl
  · rfl

lemma viewHDUImage_mem_viewers (s : ClientState) (hdu : IHDUInfo) (x : Nat)
    (hx : x ∈ s.viewers) : x ∈ (viewHDUImage s hdu).1.viewers := by
  unfold viewHDUImage
  split
  · split
    · exact hx
    · split
      · dsimp only
        split
        · exact hx
        · split
          · exact fetchAndDisplaySlice_mem_viewers _ x hx
          · exact hx
      · dsimp only
        split
        · exact hx
        · split
          · exact fetchAndDisplaySlice_mem_viewers _ x hx
          · exact hx
  · exact hx

/-- C9: for a unit already viewed (slice state present, viewer alive),
switching the active unit away and then back leaves that unit's navigation
state exactly as it was and issues no new slice fetch on re-selection. -/
theorem switch_away_and_back_preserves
    (s : ClientState) (hduA hduB : IHDUInfo) (st : ISliceState)
    (shape : List Nat) (t : ArrayType)
    (hne : hduB.index ≠ hduA.index)
    (hactive : s.activeHduIndex = some hduA.index)
    (hstate : lookupState s.sliceStates hduA.index = some st)
    (hviewer : hduA.index ∈ s.viewers)
    (hshape : hduA.shape = some shape) (hrank : 2 ≤ shape.length)
    (htype : hduA.arrayType = some t) :
    lookupState (switchToHDU (switchToHDU s hduB).1 hduA).1.sliceStates
        hduA.index = some st ∧
    (switchToHDU (switchToHDU s hduB).1 hduA).2 = ViewAction.noneAction ∧
    (switchToHDU (switchToHDU s hduB).1 hduA).1.inFlight =
      (switchToHDU s hduB).1.inFlight := by
  have hne1 : ¬ (s.activeHduIndex = some hduB.index) := by
    rw [hactive]
    simp [Ne.symm hne]
  have hsw1 : switchToHDU s hduB =
      viewHDUImage { s with activeHduIndex := some hduB.index } hduB := by
    unfold switchToHDU
    rw [if_neg hne1]
  set s1 := (switchToHDU s hduB).1 with hs1
  have hact1 : s1.activeHduIndex = some hduB.index := by
    rw [hs1, hsw1, viewHDUImage_active]
  have hlk1 : lookupState s1.sliceStates hduA.index = some st := by
    rw [hs1, hsw1, viewHDUImage_preserves_other _ _ _ hne]
    exact hstate
  have hv1 : hduA.index ∈ s1.viewers := by
    rw [hs1, hsw1]
    exact viewHDUImage_mem_viewers _ _ _ hviewer
  have hne2 : ¬ (s1.activeHduIndex = some hduA.index) := by
    rw [hact1]
    simp [hne]
  have hsw2 : switchToHDU s1 hduA =
      viewHDUImage { s1 with activeHduIndex := some hduA.index } hduA := by
    unfold switchToHDU
    rw [if_neg hne2]
  have hview2 : viewHDUImage { s1 with activeHduIndex := some hduA.index } hduA =
      ({ s1 with activeHduIndex := some hduA.index }, ViewAction.noneAction) := by
    simp only [viewHDUImage, hshape, htype]
    rw [if_neg (by omega : ¬ shape.length < 2)]
    simp only [hlk1]
    rw [if_pos hv1]
  rw [hsw2, hview2]
  exact ⟨hlk1, rfl, rfl⟩

/-- Concrete previously-viewed unit for the C9 witness. -/
def hduA9 : IHDUInfo :=
  { index := 0, shape := some [4, 4], arrayType := some ArrayType.FLOAT64 }

/-- Concrete other unit for the C9 witness. -/
def hduB9 : IHDUInfo :=
  { index := 1, shape := some [3, 3], arrayType := some ArrayType.FLOAT64 }

/-- Concrete slice state of the previously-viewed unit for the C9 witness. -/
def stW9 : ISliceState := { hduIndex := 0, shape := [4, 4], sliceIndices := [] }

/-- Concrete client state for the C9 witness. -/
def sW9 : ClientState :=
  { sliceStates := [(0, stW9)], activeHduIndex := some 0, viewers := [0]
  , inFlight := [], nextRequestId := 0, fetchAbortController := none }

/-- C9 witness at the concrete two-unit client state. -/
theorem switch_away_and_back_preserves_witness :
    lookupState (switchToHDU (switchToHDU sW9 hduB9).1 hduA9).1.sliceStates
        hduA9.index = some stW9 ∧
    (switchToHDU (switchToHDU sW9 hduB9).1 hduA9).2 = ViewAction.noneAction ∧
    (switchToHDU (switchToHDU sW9 hduB9).1 hduA9).1.inFlight =
      (switchToHDU sW9 hduB9).1.inFlight :=
  switch_away_and_back_preserves sW9 hduA9 hduB9 stW9 [4, 4] ArrayType.FLOAT64
    (by decide) (by decide) (by decide) (by decide) (by decide) (by decide)
    (by decide)

/-- C10 counterexample: for the unrecognized tag `"xyz"` the request-side
extraction keeps the tag as-is instead of defaulting it to `'f64'`, and on
a 1-byte buffer the default `Float64Array` branch of `createTypedArray`
throws a `RangeError` (modelled `none`) — so the decode is not total for
every buffer and every string tag. -/
theorem unknown_tag_counterexample :
    extractArrayType (some "xyz") = "xyz" ∧
    ("xyz" : String) ≠ "f64" ∧
    createTypedArray [0] "xyz" = none := by
  refine ⟨rfl, by decide, by decide⟩

set_option maxHeartbeats 1000000 in
/-- C10 amended: only an absent (or empty) `X-FITS-Type` header is
defaulted to `'f64'` by the request functions — an unrecognized non-empty
tag is passed through unchanged; `createTypedArray`'s default branch
decodes any unrecognized tag as `Float64Array`, succeeding with element
count `byteLength / 8` exactly when the byte length is a multiple of 8
(and throwing a `RangeError` otherwise, so the decode is not total). -/
theorem unknown_tag_decodes_as_float64 (tag : String) (buffer : ByteBuffer)
    (hunknown : parseArrayType tag = none)
    (hmul : buffer.length % 8 = 0) :
    extractArrayType none = "f64" ∧
    (extractArrayType (some tag) = if tag = "" then "f64" else tag) ∧
    createTypedArrayKind tag = TypedArrayKind.float64 ∧
    createTypedArray buffer tag =
      some { kind := TypedArrayKind.float64, length := buffer.length / 8 } := by
  have hks : createTypedArrayKind tag = TypedArrayKind.float64 := by
    unfold parseArrayType at hunknown
    split_ifs at hunknown with h1 h2 h3 h4 h5 h6 h7 h8 h9 h10
    unfold createTypedArrayKind
    rw [if_neg h1, if_neg h2, if_neg h3, if_neg h4, if_neg h5, if_neg h6,
      if_neg h7, if_neg h8, if_neg h9]
  refine ⟨rfl, rfl, hks, ?_⟩
  unfold createTypedArray
  rw [hks]
  simp only [TypedArrayKind.bytesPerElement]
  rw [if_pos hmul]

/-- C10 amended witness: tag `"xyz"` over a 16-byte buffer decodes as two
`Float64Array` elements. -/
theorem unknown_tag_decodes_as_float64_witness :
    extractArrayType none = "f64" ∧
    (extractArrayType (some "xyz") = if ("xyz" : String) = "" then "f64" else "xyz") ∧
    createTypedArrayKind "xyz" = TypedArrayKind.float64 ∧
    createTypedArray (List.replicate 16 0) "xyz" =
      some { kind := TypedArrayKind.float64
           , length := (List.replicate (16:Nat) (0:UInt8)).length / 8 } :=
  unknown_tag_decodes_as_float64 "xyz" (List.replicate 16 0)
    (by decide) (by decide)

end Fitsview
